import Mathlib

/-
  Verification of the stub data-structure repository (C sources under src/).

  Shallow embedding. Every public function defined in the repository's .c
  files is modelled by the observable behaviour of its body:
    - the single printf call it performs, recorded as an output event
      carrying the printf format string together with the C values the call
      passes as varargs (rendering of %p / %d is left to the printf
      semantics; two events are the same print iff format and arguments
      agree);
    - the stores it performs through pointer out-parameters (each C body
      guards such a store by `if (ptr) { *ptr = v; }`, so a store happens
      exactly for a non-null pointer argument at an out position);
    - its constant return value.
  No stub reads or writes anything else, calls a visitor callback, or
  touches the structure it is handed, so this is the complete effect of a
  call.  C ints are modelled as Int, pointers as Nat addresses with 0 for
  NULL.  Each function's model is one table row (a `StubSpec`); `runStub`
  is the shared interpreter of a row, matching the uniform shape
  `printf(fmt, ...); if (out) *out = v; return c;` of every stub body.
  `vector_create`, the one function with a real implementation, is
  modelled separately and exactly, with an allocator oracle
  (src/vector/vector.c lines 27-46).
-/

namespace DataStructures

/-- A C value: an int, a bool, a pointer (address, 0 = NULL), a function
pointer (visitor callbacks, identified opaquely), or the absent value of a
void return. -/
inductive CVal : Type
  | int (n : Int)
  | boolean (b : Bool)
  | ptr (a : Nat)
  | fnptr (id : Nat)
  | void
deriving DecidableEq, Repr

/-- One printf call: the format string and the C values passed for its
conversion specifiers, in order. -/
structure OutEvent : Type where
  fmt : String
  args : List CVal
deriving DecidableEq, Repr

/-- The complete observable effect of one call to a stub body: the printed
line, the stores performed through pointer out-parameters (address, value),
and the returned value. -/
structure StubResult : Type where
  output : List OutEvent
  writes : List (Nat × CVal)
  ret : CVal
deriving DecidableEq, Repr

/-- Model of one public C function of the repository, read off its body in
the module's .c file: module name, function name, number of parameters,
printf format string, which parameters the printf passes as varargs (by
0-based position), the constant return value, the positions of pointer
out-parameters written through (each store guarded by a null check in the
source), the position of the `bool* success` parameter when there is one,
and the constant value stored through out-parameters. -/
structure StubSpec : Type where
  modName : String
  name : String
  arity : Nat
  fmt : String
  printedArgIdx : List Nat
  ret : CVal
  outIdx : List Nat
  succIdx : Option Nat
  outVal : CVal
deriving DecidableEq, Repr

/-- Row builder for the standard stub body
`printf("STUB: <name> not implemented\n"); return c;` with no
out-parameters (the overwhelmingly common shape). -/
def mkStd (modName name : String) (arity : Nat) (ret : CVal) : StubSpec :=
  ⟨modName, name, arity, "STUB: " ++ name ++ " not implemented\n", [], ret, [], none,
    .boolean false⟩

/-- Row builder for the stub body
`printf("STUB: <name> not implemented\n"); if (success) *success = false; return 0;`
taking a `bool* success` out-parameter at position si and returning int 0. -/
def mkSucc (modName name : String) (arity si : Nat) : StubSpec :=
  ⟨modName, name, arity, "STUB: " ++ name ++ " not implemented\n", [], .int 0, [si],
    some si, .boolean false⟩

/-- The store a stub body performs for the out-parameter at position i:
when the argument there is a non-null pointer p, the value outVal is
stored at p, mirroring `if (ptr) { *ptr = v; }` in every source body;
a null pointer suppresses the store. -/
def outStore (outVal : CVal) (args : List CVal) (i : Nat) : Option (Nat × CVal) :=
  match args.get? i with
  | some (.ptr p) => if p = 0 then none else some (p, outVal)
  | _ => none

/-- Interpreter of a stub body: one printf event (format plus the argument
values the call passes), one guarded store per out-parameter position,
and the constant return.  The args list is the C argument list in
declaration order. -/
def runStub (s : StubSpec) (args : List CVal) : StubResult :=
  { output := [⟨s.fmt, s.printedArgIdx.filterMap fun i => args.get? i⟩],
    writes := s.outIdx.filterMap (outStore s.outVal args),
    ret := s.ret }

/- ---------- src/vector/vector.c (stub rows; vector_create is modelled
   separately below) ---------- -/

def vector_destroy : StubSpec := mkStd "vector" "vector_destroy" 1 .void

def vector_size : StubSpec := mkStd "vector" "vector_size" 1 (.int 0)

def vector_capacity : StubSpec := mkStd "vector" "vector_capacity" 1 (.int 0)

def vector_is_empty : StubSpec := mkStd "vector" "vector_is_empty" 1 (.boolean true)

def vector_push_back : StubSpec := mkStd "vector" "vector_push_back" 2 (.boolean false)

def vector_get_item : StubSpec := mkSucc "vector" "vector_get_item" 3 2

def vector_set_item : StubSpec := mkStd "vector" "vector_set_item" 3 (.boolean false)

def vector_insert_item : StubSpec := mkStd "vector" "vector_insert_item" 3 (.boolean false)

def vector_pop_back : StubSpec := mkSucc "vector" "vector_pop_back" 2 1

def vector_remove_item : StubSpec := mkStd "vector" "vector_remove_item" 2 (.boolean false)

def vector_clear : StubSpec := mkStd "vector" "vector_clear" 1 .void

def vector_reserve : StubSpec := mkStd "vector" "vector_reserve" 2 (.boolean false)

def vector_shrink_to_fit : StubSpec := mkStd "vector" "vector_shrink_to_fit" 1 (.boolean false)

/- ---------- src/avl_tree/avl_tree.c ----------
   The avl_tree stubs print their arguments after the diagnostic, and
   avl_tree_destroy prints "called" instead of "not implemented"; the
   format strings below are the printf literals of the source. -/

def avl_tree_create : StubSpec :=
  ⟨"avl_tree", "avl_tree_create", 0, "STUB: avl_tree_create not implemented\n", [],
    .ptr 0, [], none, .boolean false⟩

def avl_tree_destroy : StubSpec :=
  ⟨"avl_tree", "avl_tree_destroy", 1, "STUB: avl_tree_destroy called (tree: %p)\n", [0],
    .void, [], none, .boolean false⟩

def avl_tree_insert : StubSpec :=
  ⟨"avl_tree", "avl_tree_insert", 2,
    "STUB: avl_tree_insert not implemented (tree: %p, value: %d)\n", [0, 1],
    .boolean false, [], none, .boolean false⟩

def avl_tree_contains : StubSpec :=
  ⟨"avl_tree", "avl_tree_contains", 2,
    "STUB: avl_tree_contains not implemented (tree: %p, value: %d)\n", [0, 1],
    .boolean false, [], none, .boolean false⟩

def avl_tree_remove : StubSpec :=
  ⟨"avl_tree", "avl_tree_remove", 2,
    "STUB: avl_tree_remove not implemented (tree: %p, value: %d)\n", [0, 1],
    .boolean false, [], none, .boolean false⟩

def avl_tree_size : StubSpec :=
  ⟨"avl_tree", "avl_tree_size", 1, "STUB: avl_tree_size not implemented (tree: %p)\n", [0],
    .int 0, [], none, .boolean false⟩

def avl_tree_is_empty : StubSpec :=
  ⟨"avl_tree", "avl_tree_is_empty", 1,
    "STUB: avl_tree_is_empty not implemented (tree: %p)\n", [0],
    .boolean true, [], none, .boolean false⟩

def avl_tree_get_height : StubSpec :=
  ⟨"avl_tree", "avl_tree_get_height", 1,
    "STUB: avl_tree_get_height not implemented (tree: %p)\n", [0],
    .int (-1), [], none, .boolean false⟩

def avl_tree_in_order_traversal : StubSpec :=
  ⟨"avl_tree", "avl_tree_in_order_traversal", 3,
    "STUB: avl_tree_in_order_traversal not implemented (tree: %p)\n", [0],
    .void, [], none, .boolean false⟩

def avl_tree_pre_order_traversal : StubSpec :=
  ⟨"avl_tree", "avl_tree_pre_order_traversal", 3,
    "STUB: avl_tree_pre_order_traversal not implemented (tree: %p)\n", [0],
    .void, [], none, .boolean false⟩

def avl_tree_post_order_traversal : StubSpec :=
  ⟨"avl_tree", "avl_tree_post_order_traversal", 3,
    "STUB: avl_tree_post_order_traversal not implemented (tree: %p)\n", [0],
    .void, [], none, .boolean false⟩

/- ---------- src/binary_heap/binary_heap.c ---------- -/

def binary_heap_create : StubSpec := mkStd "binary_heap" "binary_heap_create" 1 (.ptr 0)

def binary_heap_destroy : StubSpec := mkStd "binary_heap" "binary_heap_destroy" 1 .void

def binary_heap_insert : StubSpec := mkStd "binary_heap" "binary_heap_insert" 2 (.boolean false)

def binary_heap_extract_min : StubSpec := mkSucc "binary_heap" "binary_heap_extract_min" 2 1

def binary_heap_peek_min : StubSpec := mkSucc "binary_heap" "binary_heap_peek_min" 2 1

def binary_heap_is_empty : StubSpec := mkStd "binary_heap" "binary_heap_is_empty" 1 (.boolean true)

def binary_heap_size : StubSpec := mkStd "binary_heap" "binary_heap_size" 1 (.int 0)

def binary_heap_capacity : StubSpec := mkStd "binary_heap" "binary_heap_capacity" 1 (.int 0)

def binary_heap_clear : StubSpec := mkStd "binary_heap" "binary_heap_clear" 1 .void

def binary_heap_print_array : StubSpec := mkStd "binary_heap" "binary_heap_print_array" 1 .void

/- ---------- src/binary_search_tree/binary_search_tree.c ---------- -/

def bst_create : StubSpec := mkStd "binary_search_tree" "bst_create" 0 (.ptr 0)

def bst_destroy : StubSpec := mkStd "binary_search_tree" "bst_destroy" 1 .void

def bst_insert : StubSpec := mkStd "binary_search_tree" "bst_insert" 2 (.boolean false)

def bst_contains : StubSpec := mkStd "binary_search_tree" "bst_contains" 2 (.boolean false)

def bst_remove : StubSpec := mkStd "binary_search_tree" "bst_remove" 2 (.boolean false)

def bst_size : StubSpec := mkStd "binary_search_tree" "bst_size" 1 (.int 0)

def bst_is_empty : StubSpec := mkStd "binary_search_tree" "bst_is_empty" 1 (.boolean true)

def bst_clear : StubSpec := mkStd "binary_search_tree" "bst_clear" 1 .void

def bst_find_min : StubSpec := mkSucc "binary_search_tree" "bst_find_min" 2 1

def bst_find_max : StubSpec := mkSucc "binary_search_tree" "bst_find_max" 2 1

def bst_height : StubSpec := mkStd "binary_search_tree" "bst_height" 1 (.int (-1))

def bst_in_order_traversal : StubSpec := mkStd "binary_search_tree" "bst_in_order_traversal" 3 .void

def bst_pre_order_traversal : StubSpec := mkStd "binary_search_tree" "bst_pre_order_traversal" 3 .void

def bst_post_order_traversal : StubSpec := mkStd "binary_search_tree" "bst_post_order_traversal" 3 .void

/- ---------- src/deque/deque.c ---------- -/

def deque_create : StubSpec := mkStd "deque" "deque_create" 1 (.ptr 0)

def deque_destroy : StubSpec := mkStd "deque" "deque_destroy" 1 .void

def deque_add_first : StubSpec := mkStd "deque" "deque_add_first" 2 (.boolean false)

def deque_add_last : StubSpec := mkStd "deque" "deque_add_last" 2 (.boolean false)

def deque_remove_first : StubSpec := mkSucc "deque" "deque_remove_first" 2 1

def deque_remove_last : StubSpec := mkSucc "deque" "deque_remove_last" 2 1

def deque_peek_first : StubSpec := mkSucc "deque" "deque_peek_first" 2 1

def deque_peek_last : StubSpec := mkSucc "deque" "deque_peek_last" 2 1

def deque_is_empty : StubSpec := mkStd "deque" "deque_is_empty" 1 (.boolean true)

def deque_size : StubSpec := mkStd "deque" "deque_size" 1 (.int 0)

def deque_capacity : StubSpec := mkStd "deque" "deque_capacity" 1 (.int 0)

def deque_clear : StubSpec := mkStd "deque" "deque_clear" 1 .void

def deque_reserve : StubSpec := mkStd "deque" "deque_reserve" 2 (.boolean false)

def deque_print : StubSpec := mkStd "deque" "deque_print" 1 .void

/- ---------- src/disjoint_set_union/disjoint_set_union.c ----------
   Note dsu_find returns -1 ("As per .h: Returns -1 if element_id is out
   of bounds"), not 0. -/

def dsu_create : StubSpec := mkStd "disjoint_set_union" "dsu_create" 1 (.ptr 0)

def dsu_destroy : StubSpec := mkStd "disjoint_set_union" "dsu_destroy" 1 .void

def dsu_find : StubSpec := mkStd "disjoint_set_union" "dsu_find" 2 (.int (-1))

def dsu_union_sets : StubSpec := mkStd "disjoint_set_union" "dsu_union_sets" 3 (.boolean false)

def dsu_are_in_same_set : StubSpec :=
  mkStd "disjoint_set_union" "dsu_are_in_same_set" 3 (.boolean false)

def dsu_get_num_sets : StubSpec := mkStd "disjoint_set_union" "dsu_get_num_sets" 1 (.int 0)

def dsu_get_set_size : StubSpec := mkStd "disjoint_set_union" "dsu_get_set_size" 2 (.int 0)

def dsu_print_parents : StubSpec := mkStd "disjoint_set_union" "dsu_print_parents" 1 .void

/- ---------- src/doubly_linked_list/doubly_linked_list.c ---------- -/

def dll_create : StubSpec := mkStd "doubly_linked_list" "dll_create" 0 (.ptr 0)

def dll_destroy : StubSpec := mkStd "doubly_linked_list" "dll_destroy" 1 .void

def dll_size : StubSpec := mkStd "doubly_linked_list" "dll_size" 1 (.int 0)

def dll_is_empty : StubSpec := mkStd "doubly_linked_list" "dll_is_empty" 1 (.boolean true)

def dll_add_first : StubSpec := mkStd "doubly_linked_list" "dll_add_first" 2 (.boolean false)

def dll_add_last : StubSpec := mkStd "doubly_linked_list" "dll_add_last" 2 (.boolean false)

def dll_insert_at : StubSpec := mkStd "doubly_linked_list" "dll_insert_at" 3 (.boolean false)

def dll_get_first : StubSpec := mkSucc "doubly_linked_list" "dll_get_first" 2 1

def dll_get_last : StubSpec := mkSucc "doubly_linked_list" "dll_get_last" 2 1

def dll_get_at : StubSpec := mkSucc "doubly_linked_list" "dll_get_at" 3 2

def dll_remove_first : StubSpec := mkSucc "doubly_linked_list" "dll_remove_first" 2 1

def dll_remove_last : StubSpec := mkSucc "doubly_linked_list" "dll_remove_last" 2 1

def dll_remove_at : StubSpec := mkSucc "doubly_linked_list" "dll_remove_at" 3 2

def dll_contains : StubSpec := mkStd "doubly_linked_list" "dll_contains" 2 (.boolean false)

def dll_clear : StubSpec := mkStd "doubly_linked_list" "dll_clear" 1 .void

def dll_print_forward : StubSpec := mkStd "doubly_linked_list" "dll_print_forward" 1 .void

def dll_print_backward : StubSpec := mkStd "doubly_linked_list" "dll_print_backward" 1 .void

/- ---------- src/fenwick_tree/fenwick_tree.c ---------- -/

def fenwick_tree_create : StubSpec := mkStd "fenwick_tree" "fenwick_tree_create" 1 (.ptr 0)

def fenwick_tree_destroy : StubSpec := mkStd "fenwick_tree" "fenwick_tree_destroy" 1 .void

def fenwick_tree_update : StubSpec := mkStd "fenwick_tree" "fenwick_tree_update" 3 (.boolean false)

def fenwick_tree_query_prefix_sum : StubSpec :=
  mkStd "fenwick_tree" "fenwick_tree_query_prefix_sum" 2 (.int 0)

def fenwick_tree_query_range_sum : StubSpec :=
  mkStd "fenwick_tree" "fenwick_tree_query_range_sum" 3 (.int 0)

def fenwick_tree_get_size : StubSpec := mkStd "fenwick_tree" "fenwick_tree_get_size" 1 (.int 0)

def fenwick_tree_print_internal_array : StubSpec :=
  mkStd "fenwick_tree" "fenwick_tree_print_internal_array" 1 .void

/- ---------- src/graph_adj_list/graph_adj_list.c ---------- -/

def graph_adj_list_create : StubSpec := mkStd "graph_adj_list" "graph_adj_list_create" 1 (.ptr 0)

def graph_adj_list_destroy : StubSpec := mkStd "graph_adj_list" "graph_adj_list_destroy" 1 .void

def graph_adj_list_add_edge : StubSpec :=
  mkStd "graph_adj_list" "graph_adj_list_add_edge" 3 (.boolean false)

def graph_adj_list_remove_edge : StubSpec :=
  mkStd "graph_adj_list" "graph_adj_list_remove_edge" 3 (.boolean false)

def graph_adj_list_has_edge : StubSpec :=
  mkStd "graph_adj_list" "graph_adj_list_has_edge" 3 (.boolean false)

def graph_adj_list_get_num_vertices : StubSpec :=
  mkStd "graph_adj_list" "graph_adj_list_get_num_vertices" 1 (.int 0)

def graph_adj_list_print : StubSpec := mkStd "graph_adj_list" "graph_adj_list_print" 1 .void

def graph_adj_list_bfs : StubSpec := mkStd "graph_adj_list" "graph_adj_list_bfs" 4 .void

def graph_adj_list_dfs : StubSpec := mkStd "graph_adj_list" "graph_adj_list_dfs" 4 .void

/- ---------- src/graph_adj_matrix/graph_adj_matrix.c ---------- -/

def graph_adj_matrix_create : StubSpec :=
  mkStd "graph_adj_matrix" "graph_adj_matrix_create" 1 (.ptr 0)

def graph_adj_matrix_destroy : StubSpec :=
  mkStd "graph_adj_matrix" "graph_adj_matrix_destroy" 1 .void

def graph_adj_matrix_add_edge : StubSpec :=
  mkStd "graph_adj_matrix" "graph_adj_matrix_add_edge" 3 (.boolean false)

def graph_adj_matrix_remove_edge : StubSpec :=
  mkStd "graph_adj_matrix" "graph_adj_matrix_remove_edge" 3 (.boolean false)

def graph_adj_matrix_has_edge : StubSpec :=
  mkStd "graph_adj_matrix" "graph_adj_matrix_has_edge" 3 (.boolean false)

def graph_adj_matrix_get_num_vertices : StubSpec :=
  mkStd "graph_adj_matrix" "graph_adj_matrix_get_num_vertices" 1 (.int 0)

def graph_adj_matrix_print : StubSpec := mkStd "graph_adj_matrix" "graph_adj_matrix_print" 1 .void

def graph_adj_matrix_bfs : StubSpec := mkStd "graph_adj_matrix" "graph_adj_matrix_bfs" 4 .void

def graph_adj_matrix_dfs : StubSpec := mkStd "graph_adj_matrix" "graph_adj_matrix_dfs" 4 .void

/- ---------- src/hash_set/hash_set.c ---------- -/

def hash_set_create : StubSpec := mkStd "hash_set" "hash_set_create" 1 (.ptr 0)

def hash_set_destroy : StubSpec := mkStd "hash_set" "hash_set_destroy" 1 .void

def hash_set_insert : StubSpec := mkStd "hash_set" "hash_set_insert" 2 (.boolean false)

def hash_set_contains : StubSpec := mkStd "hash_set" "hash_set_contains" 2 (.boolean false)

def hash_set_remove : StubSpec := mkStd "hash_set" "hash_set_remove" 2 (.boolean false)

def hash_set_size : StubSpec := mkStd "hash_set" "hash_set_size" 1 (.int 0)

def hash_set_table_capacity : StubSpec := mkStd "hash_set" "hash_set_table_capacity" 1 (.int 0)

def hash_set_is_empty : StubSpec := mkStd "hash_set" "hash_set_is_empty" 1 (.boolean true)

def hash_set_clear : StubSpec := mkStd "hash_set" "hash_set_clear" 1 .void

def hash_set_resize : StubSpec := mkStd "hash_set" "hash_set_resize" 2 (.boolean false)

def hash_set_print : StubSpec := mkStd "hash_set" "hash_set_print" 1 .void

/- ---------- src/queue/queue.c ---------- -/

def queue_create : StubSpec := mkStd "queue" "queue_create" 1 (.ptr 0)

def queue_destroy : StubSpec := mkStd "queue" "queue_destroy" 1 .void

def queue_enqueue : StubSpec := mkStd "queue" "queue_enqueue" 2 (.boolean false)

def queue_dequeue : StubSpec := mkSucc "queue" "queue_dequeue" 2 1

def queue_peek : StubSpec := mkSucc "queue" "queue_peek" 2 1

def queue_is_empty : StubSpec := mkStd "queue" "queue_is_empty" 1 (.boolean true)

def queue_size : StubSpec := mkStd "queue" "queue_size" 1 (.int 0)

def queue_capacity : StubSpec := mkStd "queue" "queue_capacity" 1 (.int 0)

def queue_clear : StubSpec := mkStd "queue" "queue_clear" 1 .void

def queue_reserve : StubSpec := mkStd "queue" "queue_reserve" 2 (.boolean false)

def queue_print : StubSpec := mkStd "queue" "queue_print" 1 .void

/- ---------- src/red_black_tree/red_black_tree.c ---------- -/

def rbt_create : StubSpec := mkStd "red_black_tree" "rbt_create" 0 (.ptr 0)

def rbt_destroy : StubSpec := mkStd "red_black_tree" "rbt_destroy" 1 .void

def rbt_insert : StubSpec := mkStd "red_black_tree" "rbt_insert" 2 (.boolean false)

def rbt_contains : StubSpec := mkStd "red_black_tree" "rbt_contains" 2 (.boolean false)

def rbt_remove : StubSpec := mkStd "red_black_tree" "rbt_remove" 2 (.boolean false)

def rbt_size : StubSpec := mkStd "red_black_tree" "rbt_size" 1 (.int 0)

def rbt_is_empty : StubSpec := mkStd "red_black_tree" "rbt_is_empty" 1 (.boolean true)

def rbt_in_order_traversal : StubSpec := mkStd "red_black_tree" "rbt_in_order_traversal" 3 .void

/- ---------- src/rope/rope.c ----------
   rope_split stores NULL through its two Rope** out-parameters (each
   store separately null-guarded in the source) and returns false. -/

def rope_create : StubSpec := mkStd "rope" "rope_create" 0 (.ptr 0)

def rope_create_from_array : StubSpec := mkStd "rope" "rope_create_from_array" 2 (.ptr 0)

def rope_destroy : StubSpec := mkStd "rope" "rope_destroy" 1 .void

def rope_get_length : StubSpec := mkStd "rope" "rope_get_length" 1 (.int 0)

def rope_get_element_at : StubSpec := mkSucc "rope" "rope_get_element_at" 3 2

def rope_concatenate : StubSpec := mkStd "rope" "rope_concatenate" 2 (.ptr 0)

def rope_split : StubSpec :=
  ⟨"rope", "rope_split", 4, "STUB: rope_split not implemented\n", [], .boolean false,
    [2, 3], none, .ptr 0⟩

def rope_print_debug : StubSpec := mkStd "rope" "rope_print_debug" 2 .void

/- ---------- src/segment_tree/segment_tree.c ---------- -/

def segment_tree_build : StubSpec := mkStd "segment_tree" "segment_tree_build" 2 (.ptr 0)

def segment_tree_destroy : StubSpec := mkStd "segment_tree" "segment_tree_destroy" 1 .void

def segment_tree_query_range_sum : StubSpec :=
  mkSucc "segment_tree" "segment_tree_query_range_sum" 4 3

def segment_tree_update_point : StubSpec :=
  mkStd "segment_tree" "segment_tree_update_point" 3 (.boolean false)

def segment_tree_get_original_size : StubSpec :=
  mkStd "segment_tree" "segment_tree_get_original_size" 1 (.int 0)

def segment_tree_print_internal_array : StubSpec :=
  mkStd "segment_tree" "segment_tree_print_internal_array" 1 .void

/- ---------- src/singly_linked_list/singly_linked_list.c ---------- -/

def sll_create : StubSpec := mkStd "singly_linked_list" "sll_create" 0 (.ptr 0)

def sll_destroy : StubSpec := mkStd "singly_linked_list" "sll_destroy" 1 .void

def sll_size : StubSpec := mkStd "singly_linked_list" "sll_size" 1 (.int 0)

def sll_is_empty : StubSpec := mkStd "singly_linked_list" "sll_is_empty" 1 (.boolean true)

def sll_add_first : StubSpec := mkStd "singly_linked_list" "sll_add_first" 2 (.boolean false)

def sll_add_last : StubSpec := mkStd "singly_linked_list" "sll_add_last" 2 (.boolean false)

def sll_insert_at : StubSpec := mkStd "singly_linked_list" "sll_insert_at" 3 (.boolean false)

def sll_get_first : StubSpec := mkSucc "singly_linked_list" "sll_get_first" 2 1

def sll_get_last : StubSpec := mkSucc "singly_linked_list" "sll_get_last" 2 1

def sll_get_at : StubSpec := mkSucc "singly_linked_list" "sll_get_at" 3 2

def sll_remove_first : StubSpec := mkSucc "singly_linked_list" "sll_remove_first" 2 1

def sll_remove_last : StubSpec := mkSucc "singly_linked_list" "sll_remove_last" 2 1

def sll_remove_at : StubSpec := mkSucc "singly_linked_list" "sll_remove_at" 3 2

def sll_contains : StubSpec := mkStd "singly_linked_list" "sll_contains" 2 (.boolean false)

def sll_clear : StubSpec := mkStd "singly_linked_list" "sll_clear" 1 .void

def sll_print : StubSpec := mkStd "singly_linked_list" "sll_print" 1 .void

/- ---------- src/skip_list/skip_list.c ---------- -/

def skip_list_create : StubSpec := mkStd "skip_list" "skip_list_create" 0 (.ptr 0)

def skip_list_destroy : StubSpec := mkStd "skip_list" "skip_list_destroy" 1 .void

def skip_list_insert : StubSpec := mkStd "skip_list" "skip_list_insert" 2 (.boolean false)

def skip_list_contains : StubSpec := mkStd "skip_list" "skip_list_contains" 2 (.boolean false)

def skip_list_remove : StubSpec := mkStd "skip_list" "skip_list_remove" 2 (.boolean false)

def skip_list_size : StubSpec := mkStd "skip_list" "skip_list_size" 1 (.int 0)

def skip_list_is_empty : StubSpec := mkStd "skip_list" "skip_list_is_empty" 1 (.boolean true)

def skip_list_print : StubSpec := mkStd "skip_list" "skip_list_print" 1 .void

/- ---------- src/stack/stack.c ---------- -/

def stack_create : StubSpec := mkStd "stack" "stack_create" 1 (.ptr 0)

def stack_destroy : StubSpec := mkStd "stack" "stack_destroy" 1 .void

def stack_push : StubSpec := mkStd "stack" "stack_push" 2 (.boolean false)

def stack_pop : StubSpec := mkSucc "stack" "stack_pop" 2 1

def stack_peek : StubSpec := mkSucc "stack" "stack_peek" 2 1

def stack_is_empty : StubSpec := mkStd "stack" "stack_is_empty" 1 (.boolean true)

def stack_size : StubSpec := mkStd "stack" "stack_size" 1 (.int 0)

def stack_capacity : StubSpec := mkStd "stack" "stack_capacity" 1 (.int 0)

def stack_clear : StubSpec := mkStd "stack" "stack_clear" 1 .void

def stack_reserve : StubSpec := mkStd "stack" "stack_reserve" 2 (.boolean false)

def stack_print : StubSpec := mkStd "stack" "stack_print" 1 .void

/- ---------- src/trie/trie.c ---------- -/

def trie_create : StubSpec := mkStd "trie" "trie_create" 0 (.ptr 0)

def trie_destroy : StubSpec := mkStd "trie" "trie_destroy" 1 .void

def trie_insert : StubSpec := mkStd "trie" "trie_insert" 2 (.boolean false)

def trie_contains : StubSpec := mkStd "trie" "trie_contains" 2 (.boolean false)

def trie_remove : StubSpec := mkStd "trie" "trie_remove" 2 (.boolean false)

def trie_find_max_xor : StubSpec := mkSucc "trie" "trie_find_max_xor" 3 2

/-- The table of every public data-structure function defined in the
repository's .c files, one row per function, in file order.  The only
function of the repository that is not a row here is vector_create, the
sole function with a real implementation (modelled separately below);
test.c (the smoke-test driver) and c_refresh/c_theory_printer.c (a C
tutorial printer) define no data-structure functions. -/
def stubTable : List StubSpec :=
  [vector_destroy, vector_size, vector_capacity, vector_is_empty, vector_push_back,
   vector_get_item, vector_set_item, vector_insert_item, vector_pop_back,
   vector_remove_item, vector_clear, vector_reserve, vector_shrink_to_fit,
   avl_tree_create, avl_tree_destroy, avl_tree_insert, avl_tree_contains,
   avl_tree_remove, avl_tree_size, avl_tree_is_empty, avl_tree_get_height,
   avl_tree_in_order_traversal, avl_tree_pre_order_traversal, avl_tree_post_order_traversal,
   binary_heap_create, binary_heap_destroy, binary_heap_insert, binary_heap_extract_min,
   binary_heap_peek_min, binary_heap_is_empty, binary_heap_size, binary_heap_capacity,
   binary_heap_clear, binary_heap_print_array,
   bst_create, bst_destroy, bst_insert, bst_contains, bst_remove, bst_size,
   bst_is_empty, bst_clear, bst_find_min, bst_find_max, bst_height,
   bst_in_order_traversal, bst_pre_order_traversal, bst_post_order_traversal,
   deque_create, deque_destroy, deque_add_first, deque_add_last, deque_remove_first,
   deque_remove_last, deque_peek_first, deque_peek_last, deque_is_empty, deque_size,
   deque_capacity, deque_clear, deque_reserve, deque_print,
   dsu_create, dsu_destroy, dsu_find, dsu_union_sets, dsu_are_in_same_set,
   dsu_get_num_sets, dsu_get_set_size, dsu_print_parents,
   dll_create, dll_destroy, dll_size, dll_is_empty, dll_add_first, dll_add_last,
   dll_insert_at, dll_get_first, dll_get_last, dll_get_at, dll_remove_first,
   dll_remove_last, dll_remove_at, dll_contains, dll_clear, dll_print_forward,
   dll_print_backward,
   fenwick_tree_create, fenwick_tree_destroy, fenwick_tree_update,
   fenwick_tree_query_prefix_sum, fenwick_tree_query_range_sum, fenwick_tree_get_size,
   fenwick_tree_print_internal_array,
   graph_adj_list_create, graph_adj_list_destroy, graph_adj_list_add_edge,
   graph_adj_list_remove_edge, graph_adj_list_has_edge, graph_adj_list_get_num_vertices,
   graph_adj_list_print, graph_adj_list_bfs, graph_adj_list_dfs,
   graph_adj_matrix_create, graph_adj_matrix_destroy, graph_adj_matrix_add_edge,
   graph_adj_matrix_remove_edge, graph_adj_matrix_has_edge, graph_adj_matrix_get_num_vertices,
   graph_adj_matrix_print, graph_adj_matrix_bfs, graph_adj_matrix_dfs,
   hash_set_create, hash_set_destroy, hash_set_insert, hash_set_contains, hash_set_remove,
   hash_set_size, hash_set_table_capacity, hash_set_is_empty, hash_set_clear,
   hash_set_resize, hash_set_print,
   queue_create, queue_destroy, queue_enqueue, queue_dequeue, queue_peek, queue_is_empty,
   queue_size, queue_capacity, queue_clear, queue_reserve, queue_print,
   rbt_create, rbt_destroy, rbt_insert, rbt_contains, rbt_remove, rbt_size,
   rbt_is_empty, rbt_in_order_traversal,
   rope_create, rope_create_from_array, rope_destroy, rope_get_length,
   rope_get_element_at, rope_concatenate, rope_split, rope_print_debug,
   segment_tree_build, segment_tree_destroy, segment_tree_query_range_sum,
   segment_tree_update_point, segment_tree_get_original_size, segment_tree_print_internal_array,
   sll_create, sll_destroy, sll_size, sll_is_empty, sll_add_first, sll_add_last,
   sll_insert_at, sll_get_first, sll_get_last, sll_get_at, sll_remove_first,
   sll_remove_last, sll_remove_at, sll_contains, sll_clear, sll_print,
   skip_list_create, skip_list_destroy, skip_list_insert, skip_list_contains,
   skip_list_remove, skip_list_size, skip_list_is_empty, skip_list_print,
   stack_create, stack_destroy, stack_push, stack_pop, stack_peek, stack_is_empty,
   stack_size, stack_capacity, stack_clear, stack_reserve, stack_print,
   trie_create, trie_destroy, trie_insert, trie_contains, trie_remove, trie_find_max_xor]

/- ========== vector_create: the one real implementation ========== -/

/-- A heap event performed by vector_create, in program order: an
attempted malloc of the Vector struct, an attempted malloc of the element
array of len ints, or the free of the struct; allocations are tagged with
whether the malloc succeeded. -/
inductive HeapEvent : Type
  | allocStruct (ok : Bool)
  | allocData (len : Int) (ok : Bool)
  | freeStruct
deriving DecidableEq, Repr

/-- The fields of struct Vector (src/vector/vector.h): the element-array
pointer (address, 0 = NULL), the current size and the capacity. -/
structure VectorState : Type where
  data : Nat
  size : Int
  capacity : Int
deriving DecidableEq, Repr

/-- Transcription of vector_create (src/vector/vector.c lines 27-46).
The two malloc results are supplied by oracle arguments: structAlloc
(resp. dataAlloc) is the non-null address malloc would return for the
Vector struct (resp. the element array), or none when that malloc fails.
Returns the pointer the C function returns (with the struct's fields;
none for NULL) together with the heap events in program order. -/
def vector_create (initial_capacity : Int) (structAlloc dataAlloc : Option Nat) :
    Option (Nat × VectorState) × List HeapEvent :=
  if initial_capacity < 0 then (none, [])
  else
    match structAlloc with
    | none => (none, [.allocStruct false])
    | some vaddr =>
      let v : VectorState := ⟨0, 0, initial_capacity⟩
      if initial_capacity = 0 then (some (vaddr, v), [.allocStruct true])
      else
        match dataAlloc with
        | none => (none, [.allocStruct true, .allocData initial_capacity false, .freeStruct])
        | some daddr =>
          (some (vaddr, ⟨daddr, 0, initial_capacity⟩),
            [.allocStruct true, .allocData initial_capacity true])

/-- Contribution of a heap event to the number of live heap blocks. -/
def heapDelta : HeapEvent → Int
  | .allocStruct true => 1
  | .allocStruct false => 0
  | .allocData _ true => 1
  | .allocData _ false => 0
  | .freeStruct => -1

/-- Net number of live heap blocks after a sequence of heap events; 0
means nothing was leaked. -/
def netLive (evs : List HeapEvent) : Int := (evs.map heapDelta).sum

/-- Whether an event is an (attempted) allocation of the element array. -/
def isDataAlloc : HeapEvent → Bool
  | .allocData _ _ => true
  | _ => false

/-- Whether an event is an (attempted) allocation of the Vector struct. -/
def isStructAlloc : HeapEvent → Bool
  | .allocStruct _ => true
  | _ => false

/-- How many times a run allocates (or attempts to allocate) the element
array. -/
def countDataAllocs (evs : List HeapEvent) : Nat := (evs.filter isDataAlloc).length

/-- How many times a run allocates (or attempts to allocate) the Vector
struct. -/
def countStructAllocs (evs : List HeapEvent) : Nat := (evs.filter isStructAlloc).length

/- ========== memory model for the out-parameter stores ========== -/

/-- A memory: a C value at every address. -/
def Mem : Type := Nat → CVal

/-- The all-zero memory, used to instantiate theorems at a concrete
memory. -/
def mem0 : Mem := fun _ => .int 0

/-- Apply the stores of a call to a memory, in program order. -/
def applyWrites : List (Nat × CVal) → Mem → Mem
  | [], m => m
  | (p, v) :: ws, m => applyWrites ws (fun a => if a = p then v else m a)

/- ========== helper lemmas ========== -/

/-- An address that no store targets is unchanged by applyWrites. -/
theorem applyWrites_not_written (ws : List (Nat × CVal)) (m : Mem) (a : Nat)
    (h : ∀ pv ∈ ws, pv.1 ≠ a) : applyWrites ws m a = m a := by
  induction ws generalizing m with
  | nil => rfl
  | cons pv ws ih =>
    have h1 : pv.1 ≠ a := h pv (List.mem_cons_self _ _)
    have h2 := ih (fun a' => if a' = pv.1 then pv.2 else m a')
      (fun q hq => h q (List.mem_cons_of_mem _ hq))
    simpa [applyWrites, Ne.symm h1] using h2

/-- Every store a stub call performs targets a non-null pointer passed at
one of the row's out-parameter positions, and stores the row's constant
out value. -/
theorem runStub_writes_mem (s : StubSpec) (args : List CVal) (pv : Nat × CVal)
    (h : pv ∈ (runStub s args).writes) :
    ∃ i ∈ s.outIdx, args.get? i = some (.ptr pv.1) ∧ pv.1 ≠ 0 ∧ pv.2 = s.outVal := by
  simp only [runStub] at h
  rw [List.mem_filterMap] at h
  obtain ⟨i, hi, hf⟩ := h
  refine ⟨i, hi, ?_⟩
  unfold outStore at hf
  split at hf
  case h_1 p heq =>
    split at hf
    case isTrue => exact absurd hf (by simp)
    case isFalse hp =>
      obtain ⟨h1, h2⟩ : p = pv.1 ∧ s.outVal = pv.2 := by
        have := Option.some.inj hf
        exact ⟨congrArg Prod.fst this, congrArg Prod.snd this⟩
      subst h1
      exact ⟨heq, hp, h2.symm⟩
  case h_2 => exact absurd hf (by simp)

/-- A value a stub call stores through an out-parameter is the row's
constant out value. -/
theorem runStub_writes_val (s : StubSpec) (args : List CVal) (pv : Nat × CVal)
    (h : pv ∈ (runStub s args).writes) : pv.2 = s.outVal :=
  (runStub_writes_mem s args pv h).choose_spec.2.2.2

/-- Two calls passing the same values at the out-parameter positions
perform exactly the same stores. -/
theorem runStub_writes_eq (s : StubSpec) (a₁ a₂ : List CVal)
    (h : ∀ i ∈ s.outIdx, a₁.get? i = a₂.get? i) :
    (runStub s a₁).writes = (runStub s a₂).writes := by
  simp only [runStub]
  exact List.filterMap_congr fun i hi => by unfold outStore; rw [h i hi]

/-- The Int a return value carries, when it is an int. -/
def retIntPart : CVal → Option Int
  | .int n => some n
  | _ => none

/-- The printf-format tails that follow "STUB: <name> not implemented"
across the stub bodies: a bare newline, or the avl_tree argument
renderings. -/
def fmtTails : List String :=
  ["\n", " (tree: %p)\n", " (tree: %p, value: %d)\n"]

/-- Decidable per-row shape facts of the stub table, established by
evaluation: (i) every format string is "STUB: <name> not implemented"
followed by one of the tails in fmtTails, except avl_tree_destroy, whose
printf says "called" instead; (ii) every constant return value is one of
the sentinels NULL, false, true, 0, -1, or absent for a void function; (iii) the value stored through an
out-parameter is false or NULL; (iv) a row with a bool* success parameter
has exactly that parameter as its out-parameter set, stores false through
it, and returns int 0; (v) an int return is 0 or -1, and -1 only at
avl_tree_get_height, bst_height and dsu_find. -/
theorem stubTable_shape : ∀ s ∈ stubTable,
    ((s.name = "avl_tree_destroy" ∧
        s.fmt = "STUB: avl_tree_destroy called (tree: %p)\n") ∨
      ∃ t ∈ fmtTails, s.fmt = "STUB: " ++ s.name ++ " not implemented" ++ t) ∧
    (s.ret = .ptr 0 ∨ s.ret = .boolean false ∨ s.ret = .boolean true ∨
      s.ret = .int 0 ∨ s.ret = .int (-1) ∨ s.ret = .void) ∧
    (s.outVal = .boolean false ∨ s.outVal = .ptr 0) ∧
    (∀ i ∈ s.succIdx.toList,
      s.outIdx = [i] ∧ s.ret = .int 0 ∧ s.outVal = .boolean false) ∧
    (∀ n ∈ (retIntPart s.ret).toList,
      n = 0 ∨ ((s.name = "avl_tree_get_height" ∨ s.name = "bst_height" ∨
        s.name = "dsu_find") ∧ n = -1)) := by
  set_option maxRecDepth 4096 in decide

/-- The names of the *_is_empty functions of the repository (the modules
without one are DSU, Fenwick tree, the two graphs, rope, segment tree and
trie). -/
def isEmptyNames : List String :=
  ["vector_is_empty", "avl_tree_is_empty", "binary_heap_is_empty", "bst_is_empty",
   "deque_is_empty", "dll_is_empty", "hash_set_is_empty", "queue_is_empty",
   "rbt_is_empty", "sll_is_empty", "skip_list_is_empty", "stack_is_empty"]

/- ========== claims ========== -/

/-- C1, amended.  The original claim, that every public data-structure
function other than vector_create prints exactly the diagnostic
"STUB: <function name> not implemented", fails at avl_tree_destroy (see
the counterexample).  Amended: every such function prints exactly one
line, whose format is "STUB: <function name> not implemented" followed by
a newline or (for the avl_tree stubs) by a rendering of the arguments,
except avl_tree_destroy whose format says "called" instead; the function
returns its module's constant sentinel (NULL, false, true, 0, -1, or
nothing for void); and beyond that single print and constant return its
only effect is storing false or NULL through out-parameters. -/
theorem claim_C1 :
    ∀ s ∈ stubTable, s.name ≠ "vector_create" →
      (∀ args : List CVal,
        (runStub s args).output =
          [⟨s.fmt, s.printedArgIdx.filterMap fun i => args.get? i⟩] ∧
        (runStub s args).ret = s.ret ∧
        ∀ pv ∈ (runStub s args).writes,
          pv.2 = .boolean false ∨ pv.2 = .ptr 0) ∧
      ((s.name = "avl_tree_destroy" ∧
          s.fmt = "STUB: avl_tree_destroy called (tree: %p)\n") ∨
        ∃ t ∈ fmtTails, s.fmt = "STUB: " ++ s.name ++ " not implemented" ++ t) ∧
      (s.ret = .ptr 0 ∨ s.ret = .boolean false ∨ s.ret = .boolean true ∨
        s.ret = .int 0 ∨ s.ret = .int (-1) ∨ s.ret = .void) := by
  intro s hs _
  obtain ⟨hfmt, hret, houtv, _, _⟩ := stubTable_shape s hs
  refine ⟨fun args => ⟨rfl, rfl, fun pv hpv => ?_⟩, hfmt, hret⟩
  have hv := runStub_writes_val s args pv hpv
  rcases houtv with h | h
  · exact Or.inl (hv.trans h)
  · exact Or.inr (hv.trans h)

/-- C1 counterexample: calling avl_tree_destroy prints
"STUB: avl_tree_destroy called (tree: %p)" with the tree pointer, which
is not the diagnostic "STUB: avl_tree_destroy not implemented" the claim
requires. -/
theorem claim_C1_counterexample :
    avl_tree_destroy ∈ stubTable ∧
    (runStub avl_tree_destroy [.ptr 7]).output =
      [⟨"STUB: avl_tree_destroy called (tree: %p)\n", [.ptr 7]⟩] ∧
    (runStub avl_tree_destroy [.ptr 7]).output ≠
      [⟨"STUB: avl_tree_destroy not implemented\n", []⟩] := by
  exact ⟨by set_option maxRecDepth 4096 in decide, rfl, by decide⟩

/-- Witness for C1 at vector_push_back with a concrete argument list. -/
theorem claim_C1_witness :
    (runStub vector_push_back [.ptr 3, .int 7]).ret = .boolean false ∧
    (runStub vector_push_back [.ptr 3, .int 7]).output =
      [⟨"STUB: vector_push_back not implemented\n", []⟩] := by
  have h := claim_C1 vector_push_back (by set_option maxRecDepth 4096 in decide)
    (by decide)
  refine ⟨((h.1 [.ptr 3, .int 7]).2.1).trans (by decide), ?_⟩
  rw [(h.1 [.ptr 3, .int 7]).1]
  decide

/-- C2: vector_create signals failure without partial mutation.  A
negative initial_capacity is rejected before any allocation; when the
struct allocation succeeds but the element-array allocation fails, the
struct is freed and NULL is returned; whenever NULL is returned, no heap
block stays live; and a returned vector is fully initialized (size 0,
capacity as requested, data NULL exactly for capacity 0). -/
theorem claim_C2 :
    (∀ (cap : Int) (sa da : Option Nat), cap < 0 →
      vector_create cap sa da = (none, [])) ∧
    (∀ (cap : Int) (vaddr : Nat), 0 < cap →
      vector_create cap (some vaddr) none =
        (none, [.allocStruct true, .allocData cap false, .freeStruct])) ∧
    (∀ (cap : Int) (sa da : Option Nat),
      (vector_create cap sa da).1 = none →
        netLive (vector_create cap sa da).2 = 0) ∧
    (∀ (cap : Int) (sa da : Option Nat) (vaddr : Nat) (v : VectorState),
      (vector_create cap sa da).1 = some (vaddr, v) →
        v.size = 0 ∧ v.capacity = cap ∧ (cap = 0 → v.data = 0)) := by
  refine ⟨fun cap sa da h => by simp [vector_create, h], ?_, ?_, ?_⟩
  · intro cap vaddr h
    have h1 : ¬ cap < 0 := by omega
    have h2 : ¬ cap = 0 := by omega
    simp [vector_create, h1, h2]
  · intro cap sa da h
    by_cases hneg : cap < 0
    · simp [vector_create, hneg, netLive]
    · cases sa with
      | none => simp [vector_create, hneg, netLive, heapDelta]
      | some va =>
        by_cases h0 : cap = 0
        · simp [vector_create, hneg, h0] at h
        · cases da with
          | none => simp [vector_create, hneg, h0, netLive, heapDelta]
          | some daddr => simp [vector_create, hneg, h0] at h
  · intro cap sa da vaddr v h
    by_cases hneg : cap < 0
    · simp [vector_create, hneg] at h
    · cases sa with
      | none => simp [vector_create, hneg] at h
      | some va =>
        by_cases h0 : cap = 0
        · subst h0
          simp [vector_create, hneg] at h
          obtain ⟨-, h2⟩ := h
          subst h2
          exact ⟨rfl, rfl, fun _ => rfl⟩
        · cases da with
          | none => simp [vector_create, hneg, h0] at h
          | some daddr =>
            simp [vector_create, hneg, h0] at h
            obtain ⟨-, h2⟩ := h
            subst h2
            exact ⟨rfl, rfl, fun hc => absurd hc h0⟩

/-- Witness for C2 at concrete inputs: capacity -1 (rejected, no events),
and capacity 5 with a failing element-array malloc (struct freed, nothing
leaked). -/
theorem claim_C2_witness :
    vector_create (-1) (some 1) (some 2) = (none, []) ∧
    vector_create 5 (some 1) none =
      (none, [.allocStruct true, .allocData 5 false, .freeStruct]) ∧
    netLive (vector_create 5 (some 1) none).2 = 0 := by
  exact ⟨claim_C2.1 (-1) (some 1) (some 2) (by decide),
    claim_C2.2.1 5 1 (by decide),
    claim_C2.2.2.1 5 (some 1) none (by decide)⟩

/-- C3: for every stub operation (vector_create is not one), the returned
value is the same for any two argument lists; two calls passing the same
values at the out-parameter positions perform identical stores; and every
value stored is the row's fixed failure constant, so no success path is
distinguishable from a failure path. -/
theorem claim_C3 :
    ∀ s ∈ stubTable, s.name ≠ "vector_create" →
      ∀ a₁ a₂ : List CVal,
        (runStub s a₁).ret = (runStub s a₂).ret ∧
        ((∀ i ∈ s.outIdx, a₁.get? i = a₂.get? i) →
          (runStub s a₁).writes = (runStub s a₂).writes) ∧
        ∀ pv ∈ (runStub s a₁).writes, pv.2 = s.outVal := by
  intro s _ _ a₁ a₂
  exact ⟨rfl, runStub_writes_eq s a₁ a₂, fun pv hpv => runStub_writes_val s a₁ pv hpv⟩

/-- Witness for C3: two calls of rope_get_element_at on different ropes
and indices but the same success pointer return the same value and
perform the same stores. -/
theorem claim_C3_witness :
    (runStub rope_get_element_at [.ptr 5, .int 2, .ptr 8]).ret =
      (runStub rope_get_element_at [.ptr 6, .int 9, .ptr 8]).ret ∧
    (runStub rope_get_element_at [.ptr 5, .int 2, .ptr 8]).writes =
      (runStub rope_get_element_at [.ptr 6, .int 9, .ptr 8]).writes := by
  have h := claim_C3 rope_get_element_at (by set_option maxRecDepth 4096 in decide)
    (by decide) [.ptr 5, .int 2, .ptr 8] [.ptr 6, .int 9, .ptr 8]
  exact ⟨h.1, h.2.1 (by decide)⟩

/-- C4: every stub is a no-op on the structure it receives.  A stub's
only stores go through its out-parameter pointers, so every address not
passed as an out-parameter — in particular each field of the structure
(data pointer, size, capacity, nodes), which the caller never passes as a
bool*/Rope** out-parameter — holds the same value after the call. -/
theorem claim_C4 :
    ∀ s ∈ stubTable, ∀ (args : List CVal) (m : Mem) (a : Nat),
      (∀ i ∈ s.outIdx, args.get? i ≠ some (.ptr a)) →
      applyWrites (runStub s args).writes m a = m a := by
  intro s _ args m a h
  refine applyWrites_not_written _ m a fun pv hpv => ?_
  obtain ⟨i, hi, hget, -, -⟩ := runStub_writes_mem s args pv hpv
  intro hcontra
  exact h i hi (hcontra ▸ hget)

/-- Witness for C4: a vector_get_item call with success pointer 9 leaves
address 3 (where its vector argument lives) unchanged. -/
theorem claim_C4_witness :
    applyWrites (runStub vector_get_item [.ptr 3, .int 0, .ptr 9]).writes mem0 3 =
      mem0 3 := by
  exact claim_C4 vector_get_item (by set_option maxRecDepth 4096 in decide)
    [.ptr 3, .int 0, .ptr 9] mem0 3 (by decide)

/-- C5: every function with a bool* success out-parameter (the named four
and their peers, i.e. every table row with a success position) stores
false through a non-NULL success pointer and returns the default int 0. -/
theorem claim_C5 :
    vector_get_item.succIdx = some 2 ∧ vector_pop_back.succIdx = some 1 ∧
    rope_get_element_at.succIdx = some 2 ∧ trie_find_max_xor.succIdx = some 2 ∧
    ∀ s ∈ stubTable, ∀ i, s.succIdx = some i →
      ∀ (args : List CVal) (p : Nat) (m : Mem),
        args.get? i = some (.ptr p) → p ≠ 0 →
        applyWrites (runStub s args).writes m p = .boolean false ∧
        (runStub s args).ret = .int 0 := by
  refine ⟨rfl, rfl, rfl, rfl, ?_⟩
  intro s hs i hsi args p m hget hp
  obtain ⟨-, -, -, hsucc, -⟩ := stubTable_shape s hs
  obtain ⟨hout, hret, houtv⟩ := hsucc i (by simp [hsi])
  constructor
  · have hos : outStore s.outVal args i = some (p, .boolean false) := by
      unfold outStore
      rw [hget, houtv]
      simp [hp]
    have hw : (runStub s args).writes = [(p, .boolean false)] := by
      simp only [runStub, hout, List.filterMap_cons, List.filterMap_nil, hos]
    rw [hw]
    simp [applyWrites]
  · simpa [runStub] using hret

/-- Witness for C5: trie_find_max_xor with success pointer 9 stores false
at address 9 and returns 0. -/
theorem claim_C5_witness :
    applyWrites (runStub trie_find_max_xor [.ptr 4, .int 3, .ptr 9]).writes mem0 9 =
      .boolean false ∧
    (runStub trie_find_max_xor [.ptr 4, .int 3, .ptr 9]).ret = .int 0 := by
  exact claim_C5.2.2.2.2 trie_find_max_xor (by set_option maxRecDepth 4096 in decide)
    2 rfl [.ptr 4, .int 3, .ptr 9] 9 mem0 rfl (by decide)

/-- C6, amended.  The original claim, that avl_tree_get_height and
bst_height are the sole -1 returners and all other int-returning stubs
(sizes, capacities, finds, sums) return 0, fails at dsu_find, which
returns -1 (see the counterexample).  Amended: every int-returning stub
returns 0, except avl_tree_get_height, bst_height and dsu_find which
return -1 on every input. -/
theorem claim_C6 :
    (∀ args : List CVal, (runStub avl_tree_get_height args).ret = .int (-1)) ∧
    (∀ args : List CVal, (runStub bst_height args).ret = .int (-1)) ∧
    (∀ args : List CVal, (runStub dsu_find args).ret = .int (-1)) ∧
    ∀ s ∈ stubTable, ∀ n ∈ (retIntPart s.ret).toList,
      n = 0 ∨ ((s.name = "avl_tree_get_height" ∨ s.name = "bst_height" ∨
        s.name = "dsu_find") ∧ n = -1) := by
  refine ⟨fun _ => rfl, fun _ => rfl, fun _ => rfl, ?_⟩
  intro s hs
  exact (stubTable_shape s hs).2.2.2.2

/-- C6 counterexample: dsu_find, an int-returning query that is neither
avl_tree_get_height nor bst_height, returns -1 and not 0. -/
theorem claim_C6_counterexample :
    dsu_find ∈ stubTable ∧
    dsu_find.name ≠ "avl_tree_get_height" ∧ dsu_find.name ≠ "bst_height" ∧
    (runStub dsu_find [.ptr 1, .int 0]).ret = .int (-1) ∧
    (runStub dsu_find [.ptr 1, .int 0]).ret ≠ .int 0 := by
  exact ⟨by set_option maxRecDepth 4096 in decide, by decide, by decide, rfl, by decide⟩

/-- Witness for C6 at concrete inputs. -/
theorem claim_C6_witness :
    (runStub dsu_find [.ptr 1, .int 5]).ret = .int (-1) ∧
    ((-1 : Int) = 0 ∨ ((dsu_find.name = "avl_tree_get_height" ∨
      dsu_find.name = "bst_height" ∨ dsu_find.name = "dsu_find") ∧ (-1 : Int) = -1)) := by
  exact ⟨claim_C6.2.2.1 [.ptr 1, .int 5],
    claim_C6.2.2.2 dsu_find (by set_option maxRecDepth 4096 in decide) (-1) (by decide)⟩

/-- C7, amended.  The original claim, that the repository contains
duplicate definitions of vector_create one of which double-allocates the
vector's storage, fails: src/vector/vector.c line 27 holds the only
definition, and it allocates the Vector struct at most once and the
element array at most once on every input (see the counterexample). -/
theorem claim_C7 :
    ∀ (cap : Int) (sa da : Option Nat),
      countDataAllocs (vector_create cap sa da).2 ≤ 1 ∧
      countStructAllocs (vector_create cap sa da).2 ≤ 1 := by
  intro cap sa da
  by_cases hneg : cap < 0
  · simp [vector_create, hneg, countDataAllocs, countStructAllocs]
  · cases sa with
    | none =>
      simp [vector_create, hneg, countDataAllocs, countStructAllocs, isDataAlloc,
        isStructAlloc]
    | some va =>
      by_cases h0 : cap = 0
      · simp [vector_create, hneg, h0, countDataAllocs, countStructAllocs, isDataAlloc,
          isStructAlloc]
      · cases da with
        | none =>
          simp [vector_create, hneg, h0, countDataAllocs, countStructAllocs, isDataAlloc,
            isStructAlloc]
        | some daddr =>
          simp [vector_create, hneg, h0, countDataAllocs, countStructAllocs, isDataAlloc,
            isStructAlloc]

/-- C7 counterexample: on the concrete input capacity 4 with both mallocs
succeeding, vector_create allocates the element array exactly once, not
twice. -/
theorem claim_C7_counterexample :
    countDataAllocs (vector_create 4 (some 1) (some 2)).2 = 1 ∧
    ¬ 2 ≤ countDataAllocs (vector_create 4 (some 1) (some 2)).2 := by
  constructor <;> decide

/-- C8: every stub with a bool* success out-parameter null-checks it:
called with success == NULL it performs no store at all and still returns
the default 0. -/
theorem claim_C8 :
    ∀ s ∈ stubTable, ∀ i, s.succIdx = some i →
      ∀ args : List CVal, args.get? i = some (.ptr 0) →
        (runStub s args).writes = [] ∧ (runStub s args).ret = .int 0 := by
  intro s hs i hsi args hget
  obtain ⟨-, -, -, hsucc, -⟩ := stubTable_shape s hs
  obtain ⟨hout, hret, -⟩ := hsucc i (by simp [hsi])
  have hos : outStore s.outVal args i = none := by
    unfold outStore
    rw [hget]
    simp
  refine ⟨?_, by simpa [runStub] using hret⟩
  simp only [runStub, hout, List.filterMap_cons, List.filterMap_nil, hos]

/-- Witness for C8: stack_pop with a NULL success pointer stores nothing
and returns 0. -/
theorem claim_C8_witness :
    (runStub stack_pop [.ptr 4, .ptr 0]).writes = [] ∧
    (runStub stack_pop [.ptr 4, .ptr 0]).ret = .int 0 := by
  exact claim_C8 stack_pop (by set_option maxRecDepth 4096 in decide) 1 rfl
    [.ptr 4, .ptr 0] rfl

/-- C9: vector_create(0) succeeds without allocating an element array:
given the struct malloc returns the non-null address vaddr, the result is
the pointer vaddr with data == NULL, size == 0, capacity == 0, and no
element-array allocation is attempted. -/
theorem claim_C9 :
    ∀ (vaddr : Nat) (da : Option Nat), vaddr ≠ 0 →
      (vector_create 0 (some vaddr) da).1 = some (vaddr, ⟨0, 0, 0⟩) ∧
      vaddr ≠ 0 ∧
      countDataAllocs (vector_create 0 (some vaddr) da).2 = 0 := by
  intro vaddr da h
  exact ⟨by simp [vector_create], h,
    by simp [vector_create, countDataAllocs, isDataAlloc]⟩

/-- Witness for C9 at struct address 1. -/
theorem claim_C9_witness :
    (vector_create 0 (some 1) none).1 = some (1, ⟨0, 0, 0⟩) ∧
    countDataAllocs (vector_create 0 (some 1) none).2 = 0 := by
  have h := claim_C9 1 none (by decide)
  exact ⟨h.1, h.2.2⟩

/-- C10: every *_is_empty stub returns true on every argument list,
including a NULL structure pointer; moreover the *_is_empty stubs are
exactly the true-returning rows of the table, and all twelve are
present. -/
theorem claim_C10 :
    (∀ s ∈ stubTable, s.name ∈ isEmptyNames →
      ∀ args : List CVal, (runStub s args).ret = .boolean true) ∧
    (∀ s ∈ stubTable, s.ret = .boolean true → s.name ∈ isEmptyNames) ∧
    ∀ n ∈ isEmptyNames, ∃ s ∈ stubTable, s.name = n := by
  have hd : ∀ s ∈ stubTable,
      (s.name ∈ isEmptyNames → s.ret = .boolean true) ∧
      (s.ret = .boolean true → s.name ∈ isEmptyNames) := by
    set_option maxRecDepth 4096 in decide
  refine ⟨fun s hs hn args => ?_, fun s hs => (hd s hs).2, ?_⟩
  · simpa [runStub] using (hd s hs).1 hn
  · set_option maxRecDepth 4096 in decide

/-- Witness for C10: skip_list_is_empty called on a NULL skip list
reports the structure as empty. -/
theorem claim_C10_witness :
    (runStub skip_list_is_empty [.ptr 0]).ret = .boolean true := by
  exact claim_C10.1 skip_list_is_empty (by set_option maxRecDepth 4096 in decide)
    (by decide) [.ptr 0]

end DataStructures
